import Mathlib

/-!
A verification development for the dynamic command-registry and
launch-orchestration layer of `src/sdserver/cli.py` (OneDiffusion).

The Python source is shallowly embedded: pure fragments become Lean
functions, the middleware wrappers become functions from the inner
handler's outcome to the wrapped outcome, raised exceptions become
explicit error values, and side effects (echoes, telemetry events)
become explicit output lists.
-/

/-- Python exceptions that flow through the CLI middleware layers of
`cli.py`: the project's own `SDServerException` (carrying a `.message`),
`KeyboardInterrupt`, and any other `Exception` subclass identified by its
class name (`type(e).__name__`).  In Python, `KeyboardInterrupt` derives
from `BaseException` but not from `Exception`; `sdserver` and `other`
stand for `Exception` subclasses. -/
inductive PyExc where
  | keyboardInterrupt
  | sdserver (message : String)
  | other (typeName : String)
  deriving DecidableEq, Repr

/-- Python class name of the embedded exceptions, as `type(e).__name__`
produces it. -/
def PyExc.typeName : PyExc → String
  | .keyboardInterrupt => "KeyboardInterrupt"
  | .sdserver _ => "SDServerException"
  | .other n => n

/-- The test `isinstance(e, KeyboardInterrupt)` for the embedded
exceptions. -/
def PyExc.isKeyboardInterrupt : PyExc → Bool
  | .keyboardInterrupt => true
  | _ => false

/-- Whether an embedded exception matches an `except Exception` clause:
`KeyboardInterrupt` derives from `BaseException` only, so it does not;
the other constructors stand for `Exception` subclasses and do. -/
def PyExc.isExceptionSubclass : PyExc → Bool
  | .keyboardInterrupt => false
  | _ => true

/-- Embedding of `NargsOptions.__init__` (cli.py): `nargs = attrs.pop("nargs", -1)`
followed by `if nargs != -1: raise SDServerException(...)`.  The input is the
optional `nargs` entry of `attrs`; the error value carries the exception
message, which interpolates the offending arity. -/
def nargsOptionsInit (nargsAttr : Option Int) : Except PyExc Unit :=
  let nargs := nargsAttr.getD (-1)
  if nargs != -1 then
    .error (.sdserver ("'nargs' is set, and must be -1 instead of " ++ toString nargs))
  else
    .ok ()

/-- Python str.startswith, embedded on the character data of the strings
(structurally recursive, so that concrete instances evaluate in the
kernel). -/
def pyStartsWith (s p : String) : Bool := p.data.isPrefixOf s.data

/-- Splitting a character list at every separator character recognized by
the predicate, keeping empty chunks between adjacent separators, as
Python str.split(sep) does for a single-character separator. -/
def splitByPred (p : Char → Bool) : List Char → List (List Char)
  | [] => [[]]
  | x :: xs =>
    let r := splitByPred p xs
    if p x then [] :: r
    else
      match r with
      | [] => [[x]]
      | h :: t => (x :: h) :: t

/-- Python str.split(",") on the character data: chunks between commas,
empty chunks kept. -/
def pySplitComma (v : String) : List String :=
  (splitByPred (fun c => c == ',') v.data).map fun l => String.mk l

/-- Python membership test of a character in a string (the expression
`"," in v`), on the character data. -/
def pyContains (v : String) (c : Char) : Bool := v.data.contains c

/-- Embedding of the `while state.rargs and not done` loop inside
`NargsOptions.add_to_parser._parser` (cli.py): `value` accumulates the
collected tokens, starting from `[value]`; a remaining token is popped and
appended unless it starts with one of the parser's option prefixes, which
stops the loop.  Returns the collected tokens together with the remaining
(unconsumed) token stream. -/
def nargsLoop (prefixList : List String) :
    List String → List String → List String × List String
  | value, [] => (value, [])
  | value, r :: rs =>
    if prefixList.any (fun p => pyStartsWith r p) then
      (value, r :: rs)
    else
      nargsLoop prefixList (value ++ [r]) rs

/-- Embedding of `NargsOptions.add_to_parser._parser` (cli.py): the hooked
`process` receives the current `value` and the parsing state's remaining
tokens `rargs`; it delivers the tuple of collected tokens (current token
first) and leaves the remaining stream at the stopping point. -/
def nargsProcess (prefixList : List String) (value : String) (rargs : List String) :
    List String × List String :=
  nargsLoop prefixList [value] rargs

/-- Python str.split() with no separator: split on whitespace characters,
discarding empty parts. -/
def pySplitWs (v : String) : List String :=
  ((splitByPred (fun c => c.isWhitespace) v.data).map fun l => String.mk l).filter
    fun s => s != ""

/-- The per-token branch of the `for v in value` loop in
`parse_device_callback` (cli.py): a lone `","` contributes nothing
(`continue`), a token containing `","` contributes `v.split(",")`, and any
other token contributes `v.split()`. -/
def deviceTokenParts (v : String) : List String :=
  if v = "," then []
  else if pyContains v ',' then pySplitComma v
  else pySplitWs v

/-- The accumulation loop of `parse_device_callback` (cli.py):
`parsed += ...` over the input tokens. -/
def deviceFlattenLoop : List String → List String → List String
  | parsed, [] => parsed
  | parsed, v :: vs => deviceFlattenLoop (parsed ++ deviceTokenParts v) vs

/-- The non-sentinel result of `parse_device_callback` (cli.py):
the accumulated parts with the final `tuple(filter(lambda x: x, parsed))`
truthiness filter applied. -/
def deviceFlatten (value : List String) : List String :=
  (deviceFlattenLoop [] value).filter fun x => x != ""

/-- The dynamic result type of `parse_device_callback` (cli.py) as the
spec describes it: either a tuple of identifier tokens, or a bare count of
available resource units.  The embedded code only ever produces `ids`. -/
inductive DeviceParseResult where
  | ids (tokens : List String)
  | count (n : Nat)
  deriving DecidableEq, Repr

/-- Modelled from the spec: `gpu_count` is imported from `.utils`, which is
not under `src/`; §6 of the spec says the platform-resource collaborator
reports enumerated identifiers and/or a count of available accelerator
resources, and within `src/` the result of `gpu_count()` is consumed with
`len(...)` (`start_model_command`, cli.py line 509), so it is modelled as
the list of available accelerator identifiers, passed in as a parameter. -/
abbrev GpuReport : Type := List String

/-- Embedding of `parse_device_callback` (cli.py): `None` passes through;
a singleton `("all",)` tuple returns `gpu_count()` verbatim (under the
modelling of `GpuReport`, a literal list of identifiers); any other tuple
is flattened token by token. -/
def parse_device_callback (gpuCount : GpuReport) :
    Option (List String) → Option DeviceParseResult
  | none => none
  | some value =>
    if value = ["all"] then some (.ids gpuCount)
    else some (.ids (deviceFlatten value))

/-- The per-token contribution of the device-spec flattening, written from
the spec claim C8: skip a lone `","`, split a comma-containing token on
commas keeping the non-empty parts, split any other token on whitespace
keeping the non-empty parts; results are concatenated in order. -/
def specFlattenDevices : List String → List String
  | [] => []
  | v :: vs =>
    (if v = "," then []
     else if pyContains v ',' then (pySplitComma v).filter fun s => s != ""
     else pySplitWs v)
    ++ specFlattenDevices vs

/-- The telemetry event of `SDServerCommandGroup.usage_tracking` (cli.py):
an `analytics.OpenllmCliEvent` created with `cmd_group` and `cmd_name`,
whose `duration_in_ms`, `error_type` and `return_code` fields are filled in
before the event is handed to `analytics.track`. -/
structure CliEvent where
  cmd_group : String
  cmd_name : String
  duration_in_ms : Option Nat
  error_type : Option String
  return_code : Option Nat
  deriving DecidableEq, Repr

/-- Embedding of the wrapper built by `SDServerCommandGroup.usage_tracking`
(cli.py).  The inner call `func(*args, **attrs)` is represented by its
outcome `func : Except PyExc α`; wall-clock reads of `time.time_ns()` are
represented by the parameters `startTime`/`endTime` (nanoseconds), with
`duration_in_ms` their difference divided by `10 ^ 6`.  The except clause
is `except Exception as e:` — it catches only `Exception` subclasses, so
a `KeyboardInterrupt` bypasses it and propagates with no event; the
source's return-code expression `2 if isinstance(e, KeyboardInterrupt)
else 1` is kept as written, although its interrupt branch is unreachable
under that clause.  The result pairs the list of events handed to
`analytics.track` with the wrapper's own outcome (re-raise on the caught
exception path). -/
def usage_tracking {α : Type} (groupName cmdName : String) (doNotTrack : Bool)
    (startTime endTime : Nat) (func : Except PyExc α) :
    List CliEvent × Except PyExc α :=
  if doNotTrack then
    ([], func)
  else
    let durationInMs := (endTime - startTime) / 1000000
    match func with
    | .ok v =>
      ([⟨groupName, cmdName, some durationInMs, none, none⟩], .ok v)
    | .error e =>
      if e.isExceptionSubclass then
        ([⟨groupName, cmdName, some durationInMs, some e.typeName,
           some (if e.isKeyboardInterrupt then 2 else 1)⟩], .error e)
      else
        ([], .error e)

/-- Rendering of `click.style(s, fg="red")`: the message wrapped in the
ANSI red escape sequences. -/
def clickStyleRed (s : String) : String :=
  "\x1b[31m" ++ s ++ "\x1b[0m"

/-- The outcome of the wrapper built by
`SDServerCommandGroup.exception_handling` (cli.py): a normal return (an
`Option` because the `KeyboardInterrupt` arm falls through and returns
`None`), a raised `click.ClickException` carrying a message, or an
exception it does not catch, propagated unchanged. -/
inductive HandlerOutcome (α : Type) where
  | ok (a : Option α)
  | clickException (msg : String)
  | propagated (e : PyExc)
  deriving DecidableEq, Repr

/-- Embedding of the wrapper built by
`SDServerCommandGroup.exception_handling` (cli.py): an
`SDServerException` is re-raised as a `click.ClickException` whose message
is `click.style(f"[{group.name}] '{command_name}' failed: " + err.message,
fg="red")`; a `KeyboardInterrupt` is silenced (`pass`); anything else
propagates. -/
def exception_handling {α : Type} (groupName cmdName : String)
    (func : Except PyExc α) : HandlerOutcome α :=
  match func with
  | .ok a => .ok (some a)
  | .error (.sdserver m) =>
    .clickException
      (clickStyleRed ("[" ++ groupName ++ "] '" ++ cmdName ++ "' failed: " ++ m))
  | .error .keyboardInterrupt => .ok none
  | .error e => .propagated e

/-- The outcome of `SDServerCommandGroup.get_command` (cli.py): a command
found in the `_cached_http` cache, a raised `click.BadArgumentUsage`, the
`raise NotImplemented` arm of the `start-grpc` branch, or deferral to
`super().get_command(ctx, cmd_name)` with the resolved name. -/
inductive GetCommandResult where
  | cached (cmd : String)
  | badArgUsage (msg : String)
  | raisedNotImplemented
  | deferred (cmdName : String)
  deriving DecidableEq, Repr

/-- Embedding of `SDServerCommandGroup.get_command` (cli.py).
`resolveAlias` stands for the inherited `self.resolve_alias` (defined in
`bentoml_cli.utils`, outside this repository); `cachedHttp` stands for the
module-level `_cached_http` mapping; `ctxCommandName` is
`ctx.command.name` and commands are represented by their names. -/
def get_command (resolveAlias : String → String)
    (cachedHttp : List (String × String))
    (ctxCommandName : String) (cmdName : String) : GetCommandResult :=
  let resolved := resolveAlias cmdName
  if ctxCommandName = "start" then
    match cachedHttp.lookup resolved with
    | some cmd => .cached cmd
    | none =>
      .badArgUsage (resolved ++ " is not a valid model identifier supported by OpenLLM.")
  else if ctxCommandName = "start-grpc" then
    .raisedNotImplemented
  else
    .deferred resolved

/-- The model-configuration fields of `sdserver.AutoConfig.for_model`
consumed by `start_model_command` (cli.py). -/
structure SDConfig where
  model_name : String
  start_name : String
  timeout : Int
  requires_gpu : Bool
  deriving DecidableEq, Repr

/-- The stub condition of `start_model_command` (cli.py):
`sd_config["requires_gpu"] and len(available_gpu) < 1`, with
`available_gpu = gpu_count()`. -/
def buildsStub (sd_config : SDConfig) (available_gpu : GpuReport) : Bool :=
  sd_config.requires_gpu && decide (List.length available_gpu < 1)

/-- Observable CLI-side actions of a command handler in cli.py: an `_echo`
call, an `analytics.track_start_init` call, and a `server.start` call. -/
inductive CliAction where
  | echo (text : String) (fg : String)
  | trackStartInit
  | serverStart
  deriving DecidableEq, Repr

/-- The names of `SDConfig` type bound in the scopes enclosing the `noop`
handler of `start_model_command` (cli.py): the only configuration object
in scope is the local `sd_config`; the name `llm_config`, which the
handler's body references, is bound nowhere in cli.py. -/
def noopScope (sd_config : SDConfig) : List (String × SDConfig) :=
  [("sd_config", sd_config)]

/-- Embedding of the `noop` stub handler of `start_model_command`
(cli.py): it echoes the diagnostic, then evaluates the free name
`llm_config` (for `analytics.track_start_init(llm_config)` and
`return llm_config`); Python name resolution is embedded as a lookup in
the enclosing bindings, and an unbound name raises `NameError`. -/
def noop (sd_config : SDConfig) : List CliAction × Except PyExc SDConfig :=
  let acts := [CliAction.echo "No GPU available, therefore this command is disabled" "red"]
  match (noopScope sd_config).lookup "llm_config" with
  | none => (acts, .error (.other "NameError"))
  | some cfg => (acts ++ [CliAction.trackStartInit], .ok cfg)

/-- The per-index resource fragment of `model_start` (cli.py):
`f'runners."sd-{start_name}-runner".resources."nvidia.com/gpu"[{idx}]={dev}'`. -/
def indexedGpuFragment (startName : String) (idx : Nat) (dev : String) : String :=
  "runners.\"sd-" ++ startName ++ "-runner\".resources.\"nvidia.com/gpu\"["
    ++ toString idx ++ "]=" ++ dev

/-- The unindexed resource fragment of `model_start` (cli.py):
`f'runners."sd-{start_name}-runner".resources."nvidia.com/gpu"=[{device[0]}]'`. -/
def unindexedGpuFragment (startName : String) (dev : String) : String :=
  "runners.\"sd-" ++ startName ++ "-runner\".resources.\"nvidia.com/gpu\"=["
    ++ dev ++ "]"

/-- Embedding of the `if device:` block of `model_start` (cli.py): an
empty (or absent) device tuple contributes nothing; with more than one
identifier, one per-index fragment per identifier (`enumerate(device)`);
otherwise a single unindexed bracketed fragment for `device[0]`. -/
def runnerResourceFragments (startName : String) (device : List String) : List String :=
  match device with
  | [] => []
  | d :: rest =>
    if 1 < (d :: rest).length then
      (d :: rest).enum.map fun p => indexedGpuFragment startName p.1 p.2
    else
      [unindexedGpuFragment startName d]

/-- The `_bentoml_config_options_opts` list of `model_start` (cli.py):
the tracing sample rate, the api-server traffic timeout (resolved server
timeout), the per-runner traffic timeout (the config's declared timeout),
the per-runner workers-per-resource, and the device resource fragments
appended by the `if device:` block.  `workersPerResource` is the f-string
rendering of the resolved float. -/
def bentomlConfigOptionsOpts (serverTimeout : Int) (configTimeout : Int)
    (workersPerResource : String) (startName : String) (device : List String) :
    List String :=
  ["tracing.sample_rate=1.0",
   "api_server.traffic.timeout=" ++ toString serverTimeout,
   "runners.\"sd-" ++ startName ++ "-runner\".traffic.timeout=" ++ toString configTimeout,
   "runners.\"sd-" ++ startName ++ "-runner\".workers_per_resource=" ++ workersPerResource]
  ++ runnerResourceFragments startName device

/-- Embedding of the concatenation at the end of `model_start` (cli.py):

`_bentoml_config_options_env += (" " if _bentoml_config_options_env else "" + " ".join(_bentoml_config_options_opts))`

with Python's precedence: the conditional expression chooses between the
lone separator `" "` and `"" + " ".join(opts)`.  The result is stored in
the `BENTOML_CONFIG_OPTIONS` entry of the launch environment. -/
def bentomlConfigOptionsEnv (old : String) (opts : List String) : String :=
  old ++ (if old != "" then " " else "" ++ String.intercalate " " opts)

/-- The collection loop of the variadic option parser is a
takeWhile/dropWhile split of the remaining token stream at the first token
carrying a recognized option prefix. -/
theorem nargsLoop_eq (prefixList : List String) (rargs : List String) :
    ∀ acc, nargsLoop prefixList acc rargs
      = (acc ++ rargs.takeWhile (fun r => !(prefixList.any fun p => pyStartsWith r p)),
         rargs.dropWhile (fun r => !(prefixList.any fun p => pyStartsWith r p))) := by
  induction rargs with
  | nil => intro acc; simp [nargsLoop]
  | cons r rs ih =>
    intro acc
    by_cases h : (prefixList.any fun p => pyStartsWith r p) = true
    · simp [nargsLoop, h, List.takeWhile_cons, List.dropWhile_cons]
    · simp only [Bool.not_eq_true] at h
      simp [nargsLoop, h, List.takeWhile_cons, List.dropWhile_cons, ih]

/-- Filtering the per-token parts of the device loop agrees with the
per-token branch that keeps only non-empty parts. -/
theorem deviceTokenParts_filter (v : String) :
    (deviceTokenParts v).filter (fun s => s != "")
      = (if v = "," then []
         else if pyContains v ',' then (pySplitComma v).filter fun s => s != ""
         else pySplitWs v) := by
  unfold deviceTokenParts pySplitWs
  by_cases h1 : v = ","
  · simp [h1]
  · by_cases h2 : pyContains v ','
    · simp [h1, h2]
    · simp [h1, h2, List.filter_filter]

/-- The accumulated device-token parts, filtered for non-empty tokens,
factor through the claim-side per-token flattening. -/
theorem deviceFlattenLoop_filter (value : List String) :
    ∀ parsed, (deviceFlattenLoop parsed value).filter (fun x => x != "")
      = parsed.filter (fun x => x != "") ++ specFlattenDevices value := by
  induction value with
  | nil => intro parsed; simp [deviceFlattenLoop, specFlattenDevices]
  | cons v vs ih =>
    intro parsed
    rw [deviceFlattenLoop, ih, List.filter_append, deviceTokenParts_filter,
      specFlattenDevices, List.append_assoc]

/-- The device flattening of the source equals the claim-side per-token
flattening: the trailing truthiness filter of the source commutes with the
accumulation. -/
theorem deviceFlatten_eq_spec (value : List String) :
    deviceFlatten value = specFlattenDevices value := by
  unfold deviceFlatten
  rw [deviceFlattenLoop_filter]
  simp

/-- C7: when the variadic option is recognized, the parser collects the
current token plus every subsequent token that does not begin with any
recognized option prefix, stopping at the first token that begins with a
prefix or at end of input, and delivers the collected tokens as an
ordered tuple; in particular, when no remaining token starts with a
recognized prefix, the entire remaining token stream is consumed. -/
theorem C7_nargs_greedy (prefixList : List String) (value : String)
    (rargs : List String) :
    nargsProcess prefixList value rargs
      = (value :: rargs.takeWhile (fun r => !(prefixList.any fun p => pyStartsWith r p)),
         rargs.dropWhile (fun r => !(prefixList.any fun p => pyStartsWith r p)))
    ∧ ((∀ r ∈ rargs, ∀ p ∈ prefixList, ¬ (pyStartsWith r p = true)) →
        nargsProcess prefixList value rargs = (value :: rargs, [])) := by
  have base := nargsLoop_eq prefixList rargs [value]
  constructor
  · simpa [nargsProcess] using base
  · intro h
    have hall : ∀ r ∈ rargs, (fun r => !(prefixList.any fun p => pyStartsWith r p)) r = true := by
      intro r hr
      simp only [Bool.not_eq_true']
      simp only [List.any_eq_false]
      intro p hp
      exact h r hr p hp
    rw [nargsProcess, base, List.takeWhile_eq_self_iff.mpr hall,
      List.dropWhile_eq_nil_iff.mpr hall]
    simp

/-- Witness for C7 at a concrete token stream with no prefixed token. -/
theorem C7_nargs_greedy_witness :
    (∀ r ∈ ["1", "2"], ∀ p ∈ ["-", "--"], ¬ (pyStartsWith r p = true))
    ∧ nargsProcess ["-", "--"] "0" ["1", "2"] = (["0", "1", "2"], []) :=
  ⟨by decide, (C7_nargs_greedy ["-", "--"] "0" ["1", "2"]).2 (by decide)⟩

/-- C10: constructing the variadic option with an arity other than -1
raises the configuration exception naming the offending arity;
construction with unbounded arity (explicit -1 or the popped default)
succeeds. -/
theorem C10_nargs_arity :
    (∀ n : Int, n ≠ -1 →
      nargsOptionsInit (some n)
        = .error (.sdserver ("'nargs' is set, and must be -1 instead of " ++ toString n)))
    ∧ nargsOptionsInit (some (-1)) = .ok ()
    ∧ nargsOptionsInit none = .ok () := by
  refine ⟨fun n hn => ?_, rfl, rfl⟩
  simp [nargsOptionsInit, hn]

/-- Witness for C10 at the concrete arity 2. -/
theorem C10_nargs_arity_witness :
    nargsOptionsInit (some 2)
      = .error (.sdserver ("'nargs' is set, and must be -1 instead of " ++ toString (2 : Int))) :=
  C10_nargs_arity.1 2 (by decide)

/-- C2 as stated is false on the code: with two available accelerators the
sentinel tuple `("all",)` makes `parse_device_callback` return the
platform collaborator's enumeration — a literal list of identifiers — and
not the bare count 2. -/
theorem C2_count_counterexample :
    parse_device_callback ["0", "1"] (some ["all"]) = some (.ids ["0", "1"])
    ∧ parse_device_callback ["0", "1"] (some ["all"]) ≠ some (.count 2) :=
  ⟨rfl, by decide⟩

/-- C2 amended: for the exactly-singleton sentinel tuple `("all",)` the
parser returns the value reported by the platform-resource collaborator
verbatim (under the modelling, the enumeration of available identifiers,
whose length is the available count); and for every tuple of length
greater than 1 the sentinel rule does not apply — the tuple is flattened
token by token instead. -/
theorem C2_sentinel_enumeration (gpuCount : GpuReport) :
    parse_device_callback gpuCount (some ["all"]) = some (.ids gpuCount)
    ∧ (∀ value : List String, 1 < value.length →
        parse_device_callback gpuCount (some value)
          = some (.ids (deviceFlatten value))) := by
  constructor
  · simp [parse_device_callback]
  · intro value hv
    have hne : value ≠ ["all"] := by
      intro h
      rw [h] at hv
      simp at hv
    simp [parse_device_callback, hne]

/-- Witness for C2 at the concrete tuple `("all", "1")`, which contains
the sentinel token but has length 2. -/
theorem C2_sentinel_enumeration_witness :
    1 < (["all", "1"] : List String).length
    ∧ parse_device_callback ["0"] (some ["all", "1"])
        = some (.ids (deviceFlatten ["all", "1"])) :=
  ⟨by decide, (C2_sentinel_enumeration ["0"]).2 ["all", "1"] (by decide)⟩

/-- C8: every non-sentinel device tuple is flattened, order-preserving,
into the non-empty tokens obtained by skipping lone `","` tokens,
splitting comma-containing tokens on commas keeping the non-empty parts,
and splitting every other token on whitespace keeping the non-empty
parts; in particular `(",",)` yields the empty tuple and `("0,1", "2")`
yields `("0", "1", "2")`. -/
theorem C8_device_flatten :
    (∀ (g : GpuReport) (value : List String), value ≠ ["all"] →
      parse_device_callback g (some value) = some (.ids (specFlattenDevices value)))
    ∧ parse_device_callback [] (some [","]) = some (.ids [])
    ∧ parse_device_callback [] (some ["0,1", "2"]) = some (.ids ["0", "1", "2"]) := by
  refine ⟨fun g value hne => ?_, by decide, by decide⟩
  simp [parse_device_callback, hne, deviceFlatten_eq_spec]

/-- Witness for C8 at the concrete non-sentinel tuple `(",",)`. -/
theorem C8_device_flatten_witness :
    ([","] : List String) ≠ ["all"]
    ∧ parse_device_callback [] (some [","]) = some (.ids (specFlattenDevices [","])) :=
  ⟨by decide, C8_device_flatten.1 [] [","] (by decide)⟩

/-- C9: with a non-empty parsed device tuple, exactly one identifier
yields a single fragment assigning a bracketed single-element list at the
unindexed resource key, while two or more identifiers yield one per-index
fragment per identifier, pairing each identifier with its zero-based
index in order. -/
theorem C9_resource_fragments (startName : String) (device : List String)
    (h : device ≠ []) :
    (device.length = 1 →
      runnerResourceFragments startName device
        = [unindexedGpuFragment startName (device.headD "")])
    ∧ (1 < device.length →
      runnerResourceFragments startName device
        = ((List.range device.length).zip device).map
            fun p => indexedGpuFragment startName p.1 p.2) := by
  match device with
  | [] => exact absurd rfl h
  | d :: rest =>
    constructor
    · intro h1
      have hrest : rest = [] := by
        simpa using h1
      subst hrest
      simp [runnerResourceFragments]
    · intro h1
      rw [runnerResourceFragments]
      simp only [h1, if_pos]
      rw [List.enum_eq_zip_range]

/-- Witness for C9 at the spec's end-to-end example `--device 0 1`. -/
theorem C9_resource_fragments_witness :
    (["0", "1"] : List String) ≠ []
    ∧ runnerResourceFragments "stable-diffusion" ["0", "1"]
        = ((List.range 2).zip ["0", "1"]).map
            fun p => indexedGpuFragment "stable-diffusion" p.1 p.2 :=
  ⟨by decide,
   (C9_resource_fragments "stable-diffusion" ["0", "1"] (by decide)).2 (by decide)⟩

set_option maxRecDepth 8192 in
/-- C1 is the intended behavior, but the code drops every generated
configuration-option fragment whenever `BENTOML_CONFIG_OPTIONS` is already
non-empty: the misplaced conditional appends only a lone space.  With the
pre-existing value `"version=1"` the code produces `"version=1 "` instead
of the pre-existing value, a space, and the joined fragments; with an
empty pre-existing value the fragments are kept. -/
theorem C1_config_options_dropped :
    bentomlConfigOptionsEnv "version=1"
        (bentomlConfigOptionsOpts 3600 3600 "1.0" "stable-diffusion" [])
      = "version=1 "
    ∧ bentomlConfigOptionsEnv "version=1"
        (bentomlConfigOptionsOpts 3600 3600 "1.0" "stable-diffusion" [])
      ≠ "version=1 "
        ++ String.intercalate " " (bentomlConfigOptionsOpts 3600 3600 "1.0" "stable-diffusion" [])
    ∧ bentomlConfigOptionsEnv ""
        (bentomlConfigOptionsOpts 3600 3600 "1.0" "stable-diffusion" [])
      = String.intercalate " " (bentomlConfigOptionsOpts 3600 3600 "1.0" "stable-diffusion" []) := by
  refine ⟨by decide, by decide, by decide⟩

/-- C3 describes the intent, but the stub handler is broken: for a
GPU-required model with zero available GPUs the built command is indeed a
stub that never reaches the server launcher and emits the diagnostic, yet
instead of returning the model's default configuration it raises a
NameError, because its body references `llm_config`, a name bound nowhere
in cli.py. -/
theorem C3_stub_handler_name_error :
    buildsStub ⟨"stable-diffusion", "stable-diffusion", 3600, true⟩ [] = true
    ∧ noop ⟨"stable-diffusion", "stable-diffusion", 3600, true⟩
        = ([CliAction.echo "No GPU available, therefore this command is disabled" "red"],
           .error (.other "NameError"))
    ∧ CliAction.serverStart ∉ (noop ⟨"stable-diffusion", "stable-diffusion", 3600, true⟩).1 :=
  ⟨rfl, rfl, by decide⟩

/-- C4 as stated is false on the code: in the context named
`start-grpc`, `get_command` does not defer to the parent group's default
lookup — it raises (the `raise NotImplemented` arm). -/
theorem C4_grpc_counterexample :
    get_command (fun n => n) [] "start-grpc" "opt" = .raisedNotImplemented
    ∧ get_command (fun n => n) [] "start-grpc" "opt" ≠ .deferred "opt" :=
  ⟨rfl, by decide⟩

/-- C4 amended: `get_command` first resolves the name through the alias
map; in the `start` context it returns the cached command for the
canonical name, raising a bad-argument-usage condition naming the
(resolved) identifier when no such command exists; in the `start-grpc`
context it raises an unimplemented condition instead of deferring; for
every other context it defers to the parent group's default lookup with
the resolved name. -/
theorem C4_get_command_dispatch (resolveAlias : String → String)
    (cachedHttp : List (String × String)) (ctxName cmdName : String) :
    (∀ cmd, ctxName = "start" →
      cachedHttp.lookup (resolveAlias cmdName) = some cmd →
      get_command resolveAlias cachedHttp ctxName cmdName = .cached cmd)
    ∧ (ctxName = "start" →
      cachedHttp.lookup (resolveAlias cmdName) = none →
      get_command resolveAlias cachedHttp ctxName cmdName
        = .badArgUsage (resolveAlias cmdName
            ++ " is not a valid model identifier supported by OpenLLM."))
    ∧ (ctxName = "start-grpc" →
      get_command resolveAlias cachedHttp ctxName cmdName = .raisedNotImplemented)
    ∧ (ctxName ≠ "start" → ctxName ≠ "start-grpc" →
      get_command resolveAlias cachedHttp ctxName cmdName
        = .deferred (resolveAlias cmdName)) := by
  refine ⟨fun cmd hctx hfound => ?_, fun hctx hnone => ?_, fun hctx => ?_, fun h1 h2 => ?_⟩
  · subst hctx
    simp [get_command, hfound]
  · subst hctx
    simp [get_command, hnone]
  · subst hctx
    simp [get_command]
  · simp [get_command, h1, h2]

/-- Witness for C4 covering the cached, bad-argument and deferring
branches at concrete inputs. -/
theorem C4_get_command_dispatch_witness :
    get_command (fun n => n) [("opt", "opt-command")] "start" "opt" = .cached "opt-command"
    ∧ get_command (fun n => n) [] "start" "bad"
        = .badArgUsage "bad is not a valid model identifier supported by OpenLLM."
    ∧ get_command (fun n => n) [] "sdserver" "x" = .deferred "x" :=
  ⟨(C4_get_command_dispatch (fun n => n) [("opt", "opt-command")] "start" "opt").1
      "opt-command" rfl (by decide),
   (C4_get_command_dispatch (fun n => n) [] "start" "bad").2.1 rfl rfl,
   (C4_get_command_dispatch (fun n => n) [] "sdserver" "x").2.2.2 (by decide) (by decide)⟩

/-- C5: an inner `SDServerException` with message m is re-raised by the
error-translation layer as a terminal CLI error whose message contains
the bracketed group, the quoted command name, `failed:` and m (the
surrounding text is the ANSI red styling); an inner `KeyboardInterrupt`
is swallowed silently — the wrapper returns normally with no message and
no re-raise. -/
theorem C5_exception_translation (α : Type) (groupName cmdName m : String) :
    (∃ pre suf : String,
      exception_handling groupName cmdName
          ((.error (.sdserver m)) : Except PyExc α)
        = .clickException
            (pre ++ ("[" ++ groupName ++ "] '" ++ cmdName ++ "' failed: " ++ m) ++ suf))
    ∧ exception_handling groupName cmdName
        ((.error .keyboardInterrupt) : Except PyExc α) = .ok none := by
  refine ⟨⟨"\x1b[31m", "\x1b[0m", ?_⟩, rfl⟩
  simp [exception_handling, clickStyleRed, String.append_assoc]

/-- C6 as stated is false on the code: the telemetry wrapper's clause is
`except Exception as e:` and `KeyboardInterrupt` is not an `Exception`
subclass, so a user interrupt bypasses the handler — at a concrete
invocation interrupted by the user the telemetry layer emits no event at
all, in particular none carrying return code 2. -/
theorem C6_interrupt_counterexample :
    (usage_tracking "sdserver" "download" false 0 5000000
        ((.error .keyboardInterrupt) : Except PyExc Unit)).1 = []
    ∧ (usage_tracking "sdserver" "download" false 0 5000000
        ((.error .keyboardInterrupt) : Except PyExc Unit)).1.map CliEvent.return_code
      ≠ [some 2] :=
  ⟨rfl, by decide⟩

/-- C6 amended: with the do-not-track flag unset, an inner
`Exception`-subclass exception makes the telemetry layer emit exactly one
event carrying the elapsed duration, the exception's class name as error
type and return code 1, and re-raise the original exception unchanged; a
user interrupt is not caught by the except-Exception handler, so no event
is emitted and the interrupt propagates unchanged; with the do-not-track
flag set, the inner outcome passes through and no event is emitted. -/
theorem C6_usage_tracking_telemetry (α : Type) (groupName cmdName : String)
    (startTime endTime : Nat) (e : PyExc) (func : Except PyExc α) :
    (e.isExceptionSubclass = true →
      usage_tracking groupName cmdName false startTime endTime
          ((.error e) : Except PyExc α)
        = ([⟨groupName, cmdName, some ((endTime - startTime) / 1000000),
             some e.typeName, some 1⟩], .error e))
    ∧ (e.isExceptionSubclass = false →
      usage_tracking groupName cmdName false startTime endTime
          ((.error e) : Except PyExc α)
        = ([], .error e))
    ∧ usage_tracking groupName cmdName true startTime endTime func = ([], func) := by
  refine ⟨fun hc => ?_, fun hc => ?_, rfl⟩
  · cases e with
    | keyboardInterrupt => simp [PyExc.isExceptionSubclass] at hc
    | sdserver m => rfl
    | other n => rfl
  · cases e with
    | keyboardInterrupt => rfl
    | sdserver m => simp [PyExc.isExceptionSubclass] at hc
    | other n => simp [PyExc.isExceptionSubclass] at hc

/-- Witness for C6 at a generic exception (caught, one event, return code
1) and at a user interrupt (uncaught, no event). -/
theorem C6_usage_tracking_telemetry_witness :
    usage_tracking "sdserver" "download" false 0 5000000
        ((.error (.other "ValueError")) : Except PyExc Unit)
      = ([⟨"sdserver", "download", some 5, some "ValueError", some 1⟩],
         .error (.other "ValueError"))
    ∧ usage_tracking "sdserver" "download" false 0 5000000
        ((.error .keyboardInterrupt) : Except PyExc Unit)
      = ([], .error .keyboardInterrupt) :=
  ⟨(C6_usage_tracking_telemetry Unit "sdserver" "download" 0 5000000
      (.other "ValueError") (.ok ())).1 rfl,
   (C6_usage_tracking_telemetry Unit "sdserver" "download" 0 5000000
      .keyboardInterrupt (.ok ())).2.1 rfl⟩


